import Mathlib

/-!
Verification of the SageForge backtest session controller (frontend/js).

The definitions below are a shallow embedding of the controller logic in
`frontend/js/app.js` (the canonical controller), `frontend/js/config.js`,
the UI handler and API service modules, and the legacy display pipeline in
`frontend/js/main.js` (`createTradesTable`, `displayResults`,
`animateProgress`).  DOM input fields are modelled as option-valued data
(`none` = empty input / `NaN` from `parseFloat`); dates are civil dates
compared through their serial day number, matching the chronological
comparison of `new Date(s)` values on ISO date strings.
-/

namespace Backtest

/-- A civil calendar date, as read from an HTML date input. -/
structure Date where
  year : Int
  month : Int
  day : Int
deriving DecidableEq

/-- Serial day number of a civil date (days since 1970-01-01, the value that
orders `new Date(iso)` timestamps for date-only strings). -/
def daysFromCivil (d : Date) : Int :=
  let y := if d.month ≤ 2 then d.year - 1 else d.year
  let era := (if 0 ≤ y then y else y - 399) / 400
  let yoe := y - era * 400
  let mp := if 2 < d.month then d.month - 3 else d.month + 9
  let doy := (153 * mp + 2) / 5 + d.day - 1
  let doe := yoe * 365 + yoe / 4 - yoe / 100 + doy
  era * 146097 + doe - 719468

/-- Civil date of a serial day number (inverse of `daysFromCivil` on valid
dates); models the date normalization `Date.setDate` performs after
`startDate.getDate() - daysBack`. -/
def civilFromDays (z0 : Int) : Date :=
  let z := z0 + 719468
  let era := (if 0 ≤ z then z else z - 146096) / 146097
  let doe := z - era * 146097
  let yoe := (doe - doe / 1460 + doe / 36524 - doe / 146096) / 365
  let y := yoe + era * 400
  let doy := doe - (365 * yoe + yoe / 4 - yoe / 100)
  let mp := (5 * doy + 2) / 153
  let d := doy - (153 * mp + 2) / 5 + 1
  let m := if mp < 10 then mp + 3 else mp - 9
  { year := if m ≤ 2 then y + 1 else y, month := m, day := d }

/-- One catalog instrument (`/api/stocks` element). -/
structure Stock where
  symbol : String
  name : String
  sector : String
deriving DecidableEq

/-- The DOM input fields read by the controller.  A numeric field is the
result of `parseFloat(el.value)`: `none` models `NaN` (empty or unparsable
input); a date field is `none` when the input's `value` is the empty
string. -/
structure DomInputs where
  targetPercent : Option ℚ
  stopLossPercent : Option ℚ
  startDate : Option Date
  endDate : Option Date
deriving DecidableEq

/-- The controller state of `SageForgeApp` in `app.js` (`this.state`). -/
structure AppState where
  allStocks : List Stock
  filteredStocks : List Stock
  selectedStocks : List String
  selectedStrategy : String
  selectedPeriodMonths : Int
  isCustomPeriod : Bool
deriving DecidableEq

/-- `CONFIG.UI.MAX_STOCKS_SELECTION` from `config.js`. -/
def MAX_STOCKS_SELECTION : Nat := 20

/-- `toggleStock(symbol)` from `app.js`: `indexOf`; push when absent,
`splice` out the first occurrence when present. -/
def toggleStock (selected : List String) (symbol : String) : List String :=
  if symbol ∈ selected then selected.erase symbol else selected ++ [symbol]

/-- `selectAllStocks()` from `app.js`: for each filtered stock, push its
symbol unless already included.  No capacity check appears in the source. -/
def selectAllStocks (a : AppState) : AppState :=
  { a with selectedStocks :=
      (a.filteredStocks.foldl
        (fun acc st => if st.symbol ∈ acc then acc else acc ++ [st.symbol])
        a.selectedStocks) }

/-- `parseFloat(el.value) > 0` (false on `NaN`). -/
def parsedPositive : Option ℚ → Bool
  | some v => decide (0 < v)
  | none => false

/-- The `isValid` computation of `updateStartButton()` in `app.js`
(`canSubmit`; the button is enabled exactly when this is true). -/
def updateStartButton (a : AppState) (doc : DomInputs) : Bool :=
  let hasStocks := decide (0 < a.selectedStocks.length)
  let hasTarget := parsedPositive doc.targetPercent
  let hasStopLoss := parsedPositive doc.stopLossPercent
  let hasValidPeriod :=
    if a.isCustomPeriod then doc.startDate.isSome && doc.endDate.isSome
    else decide (0 < a.selectedPeriodMonths)
  hasStocks && hasTarget && hasStopLoss && hasValidPeriod

/-- `validateDates()` from `app.js`: when both dates are present and
`start >= end`, alert and clear the end date.  The boolean records whether
the invalid-range alert fired. -/
def validateDates (doc : DomInputs) : DomInputs × Bool :=
  match doc.startDate, doc.endDate with
  | some s, some e =>
      if daysFromCivil e ≤ daysFromCivil s then ({ doc with endDate := none }, true)
      else (doc, false)
  | _, _ => (doc, false)

/-- All controller states reachable at the instant `updateStartButton` runs
satisfy this: date inputs only change through handlers that run
`validateDates` first, which clears the end date on an invalid range. -/
def datesConsistent (doc : DomInputs) : Prop :=
  ∀ s e, doc.startDate = some s → doc.endDate = some e →
    daysFromCivil s < daysFromCivil e

/-- Modelled from the spec's §4.3 wording (for comparison with the code's
`updateStartButton`): selection non-empty, `target_percent > 0`,
`stop_loss_percent > 0`, and the period valid — a preset with a positive
month count, or custom mode with both dates present and passing the
`start < end` range check. -/
def canSubmitSpec (a : AppState) (doc : DomInputs) : Bool :=
  decide (0 < a.selectedStocks.length) &&
  parsedPositive doc.targetPercent &&
  parsedPositive doc.stopLossPercent &&
  (if a.isCustomPeriod then
    match doc.startDate, doc.endDate with
    | some s, some e => decide (daysFromCivil s < daysFromCivil e)
    | _, _ => false
  else decide (0 < a.selectedPeriodMonths))

/-- The `daysMap` object literal of `getDateRange()` in `app.js`. -/
def daysMapLookup (months : Int) : Option Int :=
  if months = 1 then some 30
  else if months = 3 then some 90
  else if months = 6 then some 180
  else if months = 12 then some 365
  else none

/-- `daysMap[this.state.selectedPeriodMonths] || 30` (fallback 30 for an
unknown preset; the map holds no falsy entry, so `||` is a missing-key
default here). -/
def daysBack (months : Int) : Int := (daysMapLookup months).getD 30

/-- `getDateRange()` from `app.js`: custom mode returns the two date inputs
verbatim; preset mode returns `today - daysBack` and `today`. -/
def getDateRange (a : AppState) (doc : DomInputs) (today : Date) :
    Option Date × Option Date :=
  if a.isCustomPeriod then (doc.startDate, doc.endDate)
  else
    (some (civilFromDays (daysFromCivil today - daysBack a.selectedPeriodMonths)),
      some today)

/-- The request DTO assembled by `startBacktest()` (`params`). -/
structure BacktestRequest where
  stocks : List String
  strategy : String
  target_percent : Option ℚ
  stop_loss_percent : Option ℚ
  start_date : Option Date
  end_date : Option Date
  timeframe : String
deriving DecidableEq

/-- The `params` object built at the top of `startBacktest()` in `app.js`. -/
def buildRequest (a : AppState) (doc : DomInputs) (today : Date) : BacktestRequest :=
  { stocks := a.selectedStocks
    strategy := a.selectedStrategy
    target_percent := doc.targetPercent
    stop_loss_percent := doc.stopLossPercent
    start_date := (getDateRange a doc today).1
    end_date := (getDateRange a doc today).2
    timeframe := "15min" }

/-- One element of the `detailed_trades` array of the raw server payload;
every field the display path reads is optional (the server may omit it). -/
structure RawTrade where
  stock : String
  pattern_time : Option String
  exit_time_formatted : Option String
  entry_price : Option ℚ
  exit_price : Option ℚ
  outcome : Option String
  points_gained : Option ℚ
  percentage_gain : Option ℚ
  minutes_held : Option Int
  candles_held : Option Int
deriving DecidableEq

/-- The raw backtest result payload (fields read by the summary cards of
`displayResults()` plus the trade list). -/
structure BacktestResults where
  profit_rate : Option ℚ
  safe_rate : Option ℚ
  stop_loss_rate : Option ℚ
  total_patterns : Option Int
  detailed_trades : List RawTrade
deriving DecidableEq

/-- `'x_y'.replace('_', ' ')` — JavaScript `replace` with a string pattern
substitutes only the first occurrence. -/
def replaceFirstUnderscore : List Char → List Char
  | [] => []
  | c :: cs => if c = '_' then ' ' :: cs else c :: replaceFirstUnderscore cs

/-- One rendered row of the trades table of `createTradesTable()`. -/
structure DisplayTradeRow where
  stock : String
  patternTime : String
  exitTime : String
  entryPrice : ℚ
  exitPrice : ℚ
  outcomeLabel : String
  pointsGained : ℚ
  percentageGain : ℚ
  minutesHeld : Int
  candlesHeld : Int
deriving DecidableEq

/-- The per-trade values interpolated into a row by `createTradesTable()` in
`main.js`: `|| 0` / `|| 1` / `|| 'N/A'` / `|| 'unknown'` defaults, with the
display caps `Math.min(minutes_held, 45)` and `Math.min(candles_held, 3)`. -/
def displayTradeRow (t : RawTrade) : DisplayTradeRow :=
  { stock := t.stock
    patternTime := t.pattern_time.getD "N/A"
    exitTime := t.exit_time_formatted.getD "N/A"
    entryPrice := t.entry_price.getD 0
    exitPrice := t.exit_price.getD 0
    outcomeLabel := String.mk (replaceFirstUnderscore (t.outcome.getD "unknown").data)
    pointsGained := t.points_gained.getD 0
    percentageGain := t.percentage_gain.getD 0
    minutesHeld := min (t.minutes_held.getD 0) 45
    candlesHeld := min (t.candles_held.getD 1) 3 }

/-- `trades.slice(0, 25)` rendering of `createTradesTable()`. -/
def createTradesTableRows (trades : List RawTrade) : List DisplayTradeRow :=
  (trades.take 25).map displayTradeRow

/-- The aggregate values interpolated into the summary cards of
`displayResults()` in `main.js` (`results.profit_rate || 0`, etc.). -/
structure SummaryView where
  profitRate : ℚ
  safeRate : ℚ
  stopLossRate : ℚ
  totalPatterns : Int
deriving DecidableEq

/-- Summary-card rendering of `displayResults()` (defensive `|| 0`). -/
def summaryView (r : BacktestResults) : SummaryView :=
  { profitRate := r.profit_rate.getD 0
    safeRate := r.safe_rate.getD 0
    stopLossRate := r.stop_loss_rate.getD 0
    totalPatterns := r.total_patterns.getD 0 }

/-- `ApiService` state: `lastBacktestResults` is written only after a 2xx
response inside `runBacktest` (part of the API service module). -/
structure ApiState where
  lastBacktestResults : Option BacktestResults
deriving DecidableEq

/-- `runBacktest` on a 2xx response: store the parsed raw payload. -/
def runBacktestSuccess (r : BacktestResults) : ApiState :=
  { lastBacktestResults := some r }

/-- `downloadJSON()` of `app.js`: guarded on `api.lastBacktestResults`;
when present, the exported data is exactly that stored raw payload
(`JSON.stringify(this.api.lastBacktestResults, null, 2)`). -/
def downloadJSONExport (api : ApiState) : Option BacktestResults :=
  api.lastBacktestResults

/-- State of the synthetic progress ticker of `animateProgress()` /
`hideProgress()` in the UI handler module. -/
structure ProgressState where
  value : ℚ
  tickerActive : Bool
deriving DecidableEq

/-- The raw increment of one tick: `Math.random() * 15 + 5` where the
random draw `r` satisfies `0 ≤ r < 1`. -/
def tickIncrement (r : ℚ) : ℚ := r * 15 + 5

/-- One firing of the `setInterval` callback of `animateProgress()`:
`progress += r*15+5; progress = Math.min(progress, 95)`, then
`clearInterval` once 95 is reached. -/
def animateProgressTick (p : ProgressState) (r : ℚ) : ProgressState :=
  if p.tickerActive then
    { value := min (p.value + tickIncrement r) 95
      tickerActive := decide (min (p.value + tickIncrement r) 95 < 95) }
  else p

/-- `hideProgress()`: `clearInterval(this.progressInterval)` then the fill
is snapped to `100%`. -/
def hideProgress (_p : ProgressState) : ProgressState :=
  { value := 100, tickerActive := false }

/-- The run-lifecycle state touched by a click on the start button: the
stored request parameters, every network dispatch so far, whether a
response is still pending, and the last locally raised error. -/
structure RunCtrl where
  lastBacktestParams : Option BacktestRequest
  dispatched : List BacktestRequest
  awaitingResponse : Bool
  lastError : Option String
deriving DecidableEq

/-- The fresh controller: nothing stored, nothing dispatched. -/
def initialRunCtrl : RunCtrl :=
  { lastBacktestParams := none, dispatched := [], awaitingResponse := false,
    lastError := none }

/-- The synchronous prefix of `startBacktest()` in `app.js`, as run on a
click: build the params, store them in `lastBacktestParams`, show progress,
and dispatch `api.runBacktest(params)`.  The source contains no check of
any kind on a run already being in flight, so the transition is the same
from every state and raises no error. -/
def startBacktestClick (c : RunCtrl) (req : BacktestRequest) : RunCtrl :=
  { lastBacktestParams := some req
    dispatched := c.dispatched ++ [req]
    awaitingResponse := true
    lastError := c.lastError }

/-- Export-guard state: `this.state.lastBacktestParams` of the controller
and `this.api.lastBacktestResults` of the API service. -/
structure ControllerExportState where
  lastBacktestParams : Option BacktestRequest
  lastBacktestResults : Option BacktestResults
deriving DecidableEq

/-- Outcome of one awaited `api.runBacktest` call. -/
inductive RunOutcome
  | success (r : BacktestResults)
  | failure (message : String)

/-- A whole `startBacktest()` run with its outcome: the params are stored
before the network call (so they survive a failed run); the API layer
stores the results only on a 2xx response. -/
def startBacktestRun (c : ControllerExportState) (req : BacktestRequest)
    (o : RunOutcome) : ControllerExportState :=
  match o with
  | .success r => { lastBacktestParams := some req, lastBacktestResults := some r }
  | .failure _ =>
      { lastBacktestParams := some req, lastBacktestResults := c.lastBacktestResults }

/-- `downloadExcel()` guard of `app.js`: alert and stop when
`lastBacktestParams` is null, else forward exactly the stored params to the
report endpoint.  The result is the forwarded request, `none` when the
guard rejected. -/
def downloadExcelAction (c : ControllerExportState) : Option BacktestRequest :=
  c.lastBacktestParams

/-- `downloadJSON()` guard of `app.js`: proceeds only when
`api.lastBacktestResults` is non-null. -/
def downloadJSONAllowed (c : ControllerExportState) : Bool :=
  c.lastBacktestResults.isSome

/-- Demo controller state: one stock selected, the 1-month preset active. -/
def demoApp : AppState :=
  { allStocks := []
    filteredStocks := []
    selectedStocks := ["TCS"]
    selectedStrategy := "hammer"
    selectedPeriodMonths := 1
    isCustomPeriod := false }

/-- Demo inputs: target 3, stop-loss 2, both date inputs empty. -/
def demoDoc : DomInputs :=
  { targetPercent := some 3
    stopLossPercent := some 2
    startDate := none
    endDate := none }

/-- Claim C1: for every controller state, `canSubmit` (the `isValid` value of
`updateStartButton`) is true iff all four predicates hold — selection
non-empty, `target_percent > 0`, `stop_loss_percent > 0`, and the period
valid (positive preset month count, or custom with both dates present and
passing the `start < end` range check).  The range check reaches the button
state through `validateDates`, which every date edit runs first: part one
shows `validateDates` establishes the date invariant, part two shows that
under it the code's predicate coincides with the spec's four-predicate
rule. -/
theorem canSubmit_iff_four_predicates :
    (∀ doc : DomInputs, datesConsistent (validateDates doc).1) ∧
    (∀ (a : AppState) (doc : DomInputs), datesConsistent doc →
      updateStartButton a doc = canSubmitSpec a doc) := by
  constructor
  · intro doc s e hs he
    unfold validateDates at hs he
    rcases h1 : doc.startDate with _ | s0 <;> rcases h2 : doc.endDate with _ | e0 <;>
      simp only [h1, h2] at hs he
    · exact absurd hs (by simp)
    · exact absurd hs (by simp)
    · exact absurd he (by simp)
    · by_cases hle : daysFromCivil e0 ≤ daysFromCivil s0
      · simp only [if_pos hle] at he
        exact absurd he (by simp)
      · simp only [if_neg hle] at hs he
        rw [h1] at hs
        rw [h2] at he
        cases hs
        cases he
        exact lt_of_not_le hle
  · intro a doc hc
    unfold updateStartButton canSubmitSpec
    cases ha : a.isCustomPeriod
    · simp [ha]
    · rcases h1 : doc.startDate with _ | s <;> rcases h2 : doc.endDate with _ | e <;>
        simp [ha, h1, h2]
      intro _ _ _
      exact hc s e h1 h2

/-- Witness for C1 at a concrete state: the invariant holds (both date
inputs empty) and the button is enabled, agreeing with the spec rule. -/
theorem canSubmit_iff_four_predicates_witness :
    datesConsistent demoDoc ∧
    updateStartButton demoApp demoDoc = canSubmitSpec demoApp demoDoc ∧
    updateStartButton demoApp demoDoc = true := by
  have hc : datesConsistent demoDoc := by
    intro s e hs he
    simp [demoDoc] at hs
  exact ⟨hc, canSubmit_iff_four_predicates.2 demoApp demoDoc hc, by decide⟩

/-- The C2 scenario state: `["TCS","INFY"]` selected, strategy `hammer`,
1-month preset. -/
def presetScenarioApp : AppState :=
  { allStocks := []
    filteredStocks := []
    selectedStocks := ["TCS", "INFY"]
    selectedStrategy := "hammer"
    selectedPeriodMonths := 1
    isCustomPeriod := false }

/-- The C2 scenario inputs: target 3.0, stop-loss 2.0. -/
def presetScenarioDoc : DomInputs :=
  { targetPercent := some 3
    stopLossPercent := some 2
    startDate := none
    endDate := none }

/-- Claim C2: preset period resolution returns `end_date = today` and
`start_date = today - table[m]` days with table `{1: 30, 3: 90, 6: 180,
12: 365}` and a 30-day fallback for unknown presets; on the 1-month preset
with run date 2024-06-15 the built request is exactly the scenario's. -/
theorem preset_period_resolution :
    (∀ (a : AppState) (doc : DomInputs) (today : Date), a.isCustomPeriod = false →
      getDateRange a doc today =
        (some (civilFromDays (daysFromCivil today - daysBack a.selectedPeriodMonths)),
          some today)) ∧
    daysBack 1 = 30 ∧ daysBack 3 = 90 ∧ daysBack 6 = 180 ∧ daysBack 12 = 365 ∧
    (∀ m : Int, m ≠ 1 → m ≠ 3 → m ≠ 6 → m ≠ 12 → daysBack m = 30) ∧
    buildRequest presetScenarioApp presetScenarioDoc ⟨2024, 6, 15⟩ =
      { stocks := ["TCS", "INFY"]
        strategy := "hammer"
        target_percent := some 3
        stop_loss_percent := some 2
        start_date := some ⟨2024, 5, 16⟩
        end_date := some ⟨2024, 6, 15⟩
        timeframe := "15min" } := by
  refine ⟨?_, by decide, by decide, by decide, by decide, ?_, by decide⟩
  · intro a doc today h
    simp [getDateRange, h]
  · intro m h1 h3 h6 h12
    simp [daysBack, daysMapLookup, h1, h3, h6, h12]

/-- Witness for C2 at concrete inputs: the preset branch applies on the
scenario state, and an unknown preset (5 months) falls back to 30 days. -/
theorem preset_period_resolution_witness :
    presetScenarioApp.isCustomPeriod = false ∧
    getDateRange presetScenarioApp presetScenarioDoc ⟨2024, 6, 15⟩ =
      (some (civilFromDays
          (daysFromCivil ⟨2024, 6, 15⟩ - daysBack presetScenarioApp.selectedPeriodMonths)),
        some ⟨2024, 6, 15⟩) ∧
    daysBack 5 = 30 :=
  ⟨by decide,
    preset_period_resolution.1 presetScenarioApp presetScenarioDoc ⟨2024, 6, 15⟩ (by decide),
    preset_period_resolution.2.2.2.2.2.1 5 (by decide) (by decide) (by decide) (by decide)⟩

/-- A first concrete request, as `startBacktest()` would build it. -/
def demoRequestA : BacktestRequest :=
  { stocks := ["TCS"]
    strategy := "hammer"
    target_percent := some 3
    stop_loss_percent := some 2
    start_date := some ⟨2024, 5, 16⟩
    end_date := some ⟨2024, 6, 15⟩
    timeframe := "15min" }

/-- A second concrete request started while the first is still in flight. -/
def demoRequestB : BacktestRequest :=
  { stocks := ["INFY"]
    strategy := "hammer"
    target_percent := some 4
    stop_loss_percent := some 1
    start_date := some ⟨2024, 5, 16⟩
    end_date := some ⟨2024, 6, 15⟩
    timeframe := "15min" }

/-- Claim C3, evaluated at the failing input: a second click on start while
the first run is still awaiting its response goes through `startBacktest()`
unconditionally — the code dispatches a second network request and raises
no error, because no single-flight guard exists in the source. -/
theorem second_start_dispatches_second_request :
    (startBacktestClick initialRunCtrl demoRequestA).awaitingResponse = true ∧
    (startBacktestClick (startBacktestClick initialRunCtrl demoRequestA)
        demoRequestB).dispatched = [demoRequestA, demoRequestB] ∧
    (startBacktestClick (startBacktestClick initialRunCtrl demoRequestA)
        demoRequestB).lastError = none := by
  decide

/-- A catalog of 21 distinct symbols, all visible (no filter). -/
def stocks21 : List Stock :=
  ["A1", "B2", "C3", "D4", "E5", "F6", "G7", "H8", "I9", "J0", "K1", "L2",
    "M3", "N4", "O5", "P6", "Q7", "R8", "S9", "T0", "U1"].map
    (fun s => { symbol := s, name := "Stock", sector := "it" })

/-- Controller state showing those 21 stocks with an empty selection. -/
def fullCatalogState : AppState :=
  { allStocks := stocks21
    filteredStocks := stocks21
    selectedStocks := []
    selectedStrategy := "hammer"
    selectedPeriodMonths := 1
    isCustomPeriod := false }

/-- Claim C4, evaluated at the failing input: `selectAllStocks()` on 21
visible stocks selects all 21 — the selection exceeds
`CONFIG.UI.MAX_STOCKS_SELECTION` (20), which no selection-mutating code
path ever consults, and no capacity error is signalled. -/
theorem selectAll_exceeds_configured_max :
    (selectAllStocks fullCatalogState).selectedStocks.length = 21 ∧
    MAX_STOCKS_SELECTION < (selectAllStocks fullCatalogState).selectedStocks.length := by
  decide

/-- Claim C5: the display clamp of `createTradesTable()` affects only the
rendered row; the JSON export hands out the stored raw payload, whose
`minutes_held` / `candles_held` equal the server values for the full trade
list, while the rendered value differs from the raw one whenever it
exceeds the cap. -/
theorem export_unaffected_by_display_clamp :
    ∀ (r : BacktestResults) (t : RawTrade) (m k : Int),
      t ∈ r.detailed_trades → t.minutes_held = some m → t.candles_held = some k →
      downloadJSONExport (runBacktestSuccess r) = some r ∧
      ((downloadJSONExport (runBacktestSuccess r)).map
          (fun res => res.detailed_trades.map RawTrade.minutes_held)) =
        some (r.detailed_trades.map RawTrade.minutes_held) ∧
      ((downloadJSONExport (runBacktestSuccess r)).map
          (fun res => res.detailed_trades.map RawTrade.candles_held)) =
        some (r.detailed_trades.map RawTrade.candles_held) ∧
      (45 < m → (displayTradeRow t).minutesHeld ≠ m) ∧
      (3 < k → (displayTradeRow t).candlesHeld ≠ k) := by
  intro r t m k _ht hm hk
  refine ⟨rfl, rfl, rfl, ?_, ?_⟩
  · intro h45
    simp only [displayTradeRow, hm, Option.getD_some]
    omega
  · intro h3
    simp only [displayTradeRow, hk, Option.getD_some]
    omega

/-- A raw trade whose hold-time fields exceed both display caps. -/
def clampDemoTrade : RawTrade :=
  { stock := "TCS"
    pattern_time := some "2024-06-10 10:15"
    exit_time_formatted := some "2024-06-10 11:55"
    entry_price := some 100
    exit_price := some 103
    outcome := some "target_hit"
    points_gained := some 3
    percentage_gain := some 3
    minutes_held := some 100
    candles_held := some 7 }

/-- A raw payload holding that trade. -/
def clampDemoResults : BacktestResults :=
  { profit_rate := some 50
    safe_rate := some 10
    stop_loss_rate := some 20
    total_patterns := some 2
    detailed_trades := [clampDemoTrade] }

/-- Witness for C5 at a concrete payload: 100 minutes / 7 candles are
exported raw while the rendered row shows the clamped 45 / 3. -/
theorem export_unaffected_by_display_clamp_witness :
    clampDemoTrade ∈ clampDemoResults.detailed_trades ∧
    downloadJSONExport (runBacktestSuccess clampDemoResults) = some clampDemoResults ∧
    (displayTradeRow clampDemoTrade).minutesHeld ≠ 100 ∧
    (displayTradeRow clampDemoTrade).minutesHeld = 45 ∧
    (displayTradeRow clampDemoTrade).candlesHeld = 3 :=
  ⟨by decide,
    (export_unaffected_by_display_clamp clampDemoResults clampDemoTrade 100 7
      (by decide) rfl rfl).1,
    (export_unaffected_by_display_clamp clampDemoResults clampDemoTrade 100 7
      (by decide) rfl rfl).2.2.2.1 (by decide),
    by decide, by decide⟩

/-- A custom-period controller state. -/
def customDemoApp : AppState :=
  { allStocks := []
    filteredStocks := []
    selectedStocks := ["TCS"]
    selectedStrategy := "hammer"
    selectedPeriodMonths := 1
    isCustomPeriod := true }

/-- Claim C6: with both custom dates present, `start >= end` makes
`validateDates` fail the range (alert fires, end date cleared — never
silently accepted), while `start < end` leaves the inputs untouched and
`getDateRange` places them verbatim into the built request. -/
theorem custom_range_validation :
    ∀ (doc : DomInputs) (s e : Date) (a : AppState) (today : Date),
      doc.startDate = some s → doc.endDate = some e → a.isCustomPeriod = true →
      (daysFromCivil e ≤ daysFromCivil s →
        validateDates doc = ({ doc with endDate := none }, true)) ∧
      (daysFromCivil s < daysFromCivil e →
        validateDates doc = (doc, false) ∧
        getDateRange a doc today = (some s, some e)) := by
  intro doc s e a today hs he hc
  constructor
  · intro hle
    unfold validateDates
    rw [hs, he]
    simp [hle]
  · intro hlt
    have hnle : ¬ daysFromCivil e ≤ daysFromCivil s := not_le.mpr hlt
    constructor
    · unfold validateDates
      rw [hs, he]
      simp [hnle]
    · simp [getDateRange, hc, hs, he]

/-- Demo inputs with `start >= end` (2024-01-10 before 2024-01-05 fails). -/
def rangeDemoDoc : DomInputs :=
  { targetPercent := some 3
    stopLossPercent := some 2
    startDate := some ⟨2024, 1, 10⟩
    endDate := some ⟨2024, 1, 5⟩ }

/-- Witness for C6 at concrete dates: the inverted range is rejected with
the end date cleared. -/
theorem custom_range_validation_witness :
    daysFromCivil ⟨2024, 1, 5⟩ ≤ daysFromCivil ⟨2024, 1, 10⟩ ∧
    validateDates rangeDemoDoc = ({ rangeDemoDoc with endDate := none }, true) :=
  ⟨by decide,
    (custom_range_validation rangeDemoDoc ⟨2024, 1, 10⟩ ⟨2024, 1, 5⟩ customDemoApp
      ⟨2024, 6, 15⟩ rfl rfl rfl).1 (by decide)⟩

/-- Claim C7: each tick of the synthetic progress animation adds a raw
increment in `[5, 20)` and caps the value at 95, strictly increasing it
while below the cap; `hideProgress` snaps the value to 100 and cancels the
ticker, so the pseudo-task does not outlive the session. -/
theorem synthetic_progress_bounded :
    ∀ (p : ProgressState) (r : ℚ), 0 ≤ r → r < 1 →
      (5 ≤ tickIncrement r ∧ tickIncrement r < 20) ∧
      (p.tickerActive = true → (animateProgressTick p r).value ≤ 95) ∧
      (p.tickerActive = true → p.value < 95 →
        p.value < (animateProgressTick p r).value) ∧
      (hideProgress p).value = 100 ∧ (hideProgress p).tickerActive = false := by
  intro p r hr0 hr1
  have hinc5 : 5 ≤ tickIncrement r := by
    unfold tickIncrement
    nlinarith
  have hinc20 : tickIncrement r < 20 := by
    unfold tickIncrement
    nlinarith
  refine ⟨⟨hinc5, hinc20⟩, ?_, ?_, rfl, rfl⟩
  · intro ha
    simp only [animateProgressTick, ha, if_true]
    exact min_le_right _ _
  · intro ha hv
    simp only [animateProgressTick, ha, if_true]
    exact lt_min (by linarith) hv

/-- Witness for C7 at a concrete tick: from 50% with random draw 1/2 the
increment is in range and the value stays at most 95. -/
theorem synthetic_progress_bounded_witness :
    (5 ≤ tickIncrement (1 / 2) ∧ tickIncrement (1 / 2) < 20) ∧
    (animateProgressTick ⟨50, true⟩ (1 / 2)).value ≤ 95 ∧
    (hideProgress ⟨50, true⟩).value = 100 ∧
    (hideProgress ⟨50, true⟩).tickerActive = false :=
  ⟨(synthetic_progress_bounded ⟨50, true⟩ (1 / 2) (by norm_num) (by norm_num)).1,
    (synthetic_progress_bounded ⟨50, true⟩ (1 / 2) (by norm_num) (by norm_num)).2.1 rfl,
    (synthetic_progress_bounded ⟨50, true⟩ (1 / 2) (by norm_num) (by norm_num)).2.2.2⟩

/-- A raw trade with every optional field missing. -/
def blankTrade : RawTrade :=
  { stock := "TCS"
    pattern_time := none
    exit_time_formatted := none
    entry_price := none
    exit_price := none
    outcome := none
    points_gained := none
    percentage_gain := none
    minutes_held := none
    candles_held := none }

/-- Claim C8 counterexample: on a trade with all optional fields missing
the display path defaults `candles_held` to 1 (`trade.candles_held || 1`),
not 0 — so not every per-trade numeric field normalizes to 0 as claimed. -/
theorem missing_candles_defaults_to_one_not_zero :
    (displayTradeRow blankTrade).candlesHeld = 1 ∧
    ¬ (displayTradeRow blankTrade).candlesHeld = 0 := by
  decide

/-- A raw trade with all optional fields missing, over any symbol. -/
def allMissingTrade (name : String) : RawTrade :=
  { stock := name
    pattern_time := none
    exit_time_formatted := none
    entry_price := none
    exit_price := none
    outcome := none
    points_gained := none
    percentage_gain := none
    minutes_held := none
    candles_held := none }

/-- A raw payload with every optional aggregate missing and no trades. -/
def allMissingResults : BacktestResults :=
  { profit_rate := none
    safe_rate := none
    stop_loss_rate := none
    total_patterns := none
    detailed_trades := [] }

/-- Claim C8 (amended): on a payload with all optional fields missing,
every aggregate and per-trade numeric field normalizes to 0 except
`candles_held`, which becomes 1, and the missing outcome becomes
`unknown` — the display path stays total (no uncaught throw). -/
theorem normalization_defaults :
    ∀ (name : String),
      displayTradeRow (allMissingTrade name) =
        { stock := name
          patternTime := "N/A"
          exitTime := "N/A"
          entryPrice := 0
          exitPrice := 0
          outcomeLabel := "unknown"
          pointsGained := 0
          percentageGain := 0
          minutesHeld := 0
          candlesHeld := 1 } ∧
      summaryView allMissingResults =
        { profitRate := 0
          safeRate := 0
          stopLossRate := 0
          totalPatterns := 0 } := by
  intro name
  exact ⟨rfl, rfl⟩

/-- Claim C9 counterexample: toggling `"A"` twice on the selection
`["A", "B"]` yields `["B", "A"]` — the same set of symbols, but not the
original array state (the toggled symbol moves to the end), so strict
involution on the stored state fails. -/
theorem toggle_twice_moves_symbol_to_end :
    toggleStock (toggleStock ["A", "B"] "A") "A" = ["B", "A"] ∧
    toggleStock (toggleStock ["A", "B"] "A") "A" ≠ ["A", "B"] := by
  decide

/-- On a duplicate-free selection, one toggle keeps it duplicate-free. -/
theorem toggleStock_nodup (sel : List String) (s : String) (h : sel.Nodup) :
    (toggleStock sel s).Nodup := by
  by_cases hm : s ∈ sel
  · simpa [toggleStock, hm] using h.erase s
  · have happ : (sel ++ [s]).Nodup := by
      rw [List.nodup_append]
      refine ⟨h, List.nodup_singleton s, ?_⟩
      intro x hx hxs
      rw [List.mem_singleton] at hxs
      subst hxs
      exact hm hx
    simpa [toggleStock, hm] using happ

/-- On a duplicate-free selection, toggling the same symbol twice restores
the original selection up to permutation. -/
theorem toggleStock_twice_perm (sel : List String) (s : String) (h : sel.Nodup) :
    (toggleStock (toggleStock sel s) s).Perm sel := by
  by_cases hm : s ∈ sel
  · have h1 : toggleStock sel s = sel.erase s := by
      simp [toggleStock, hm]
    have h2 : s ∉ sel.erase s := by
      intro hx
      exact ((h.mem_erase_iff).1 hx).1 rfl
    have h3 : toggleStock (sel.erase s) s = sel.erase s ++ [s] := by
      simp [toggleStock, h2]
    rw [h1, h3]
    exact (List.perm_append_singleton s (sel.erase s)).trans
      (List.perm_cons_erase hm).symm
  · have h1 : toggleStock sel s = sel ++ [s] := by
      simp [toggleStock, hm]
    have h2 : s ∈ sel ++ [s] := by
      simp
    have h3 : toggleStock (sel ++ [s]) s = sel := by
      simp [toggleStock, h2, List.erase_append_right _ hm]
    rw [h1, h3]

/-- Claim C9 (amended): on a duplicate-free selection, toggling the same
symbol twice restores the selection as a set (a permutation of the
original; the array may move the symbol to its end), and after any
sequence of toggles each symbol still appears at most once. -/
theorem toggle_involution_as_set_and_nodup :
    ∀ (sel : List String) (s : String) (ops : List String), sel.Nodup →
      (toggleStock (toggleStock sel s) s).Perm sel ∧
      (ops.foldl toggleStock sel).Nodup := by
  intro sel s ops h
  refine ⟨toggleStock_twice_perm sel s h, ?_⟩
  induction ops generalizing sel with
  | nil => exact h
  | cons o os ih => exact ih (toggleStock sel o) (toggleStock_nodup sel o h)

/-- Witness for C9 (amended) at a concrete selection. -/
theorem toggle_involution_witness :
    (["TCS", "INFY"] : List String).Nodup ∧
    (toggleStock (toggleStock ["TCS", "INFY"] "TCS") "TCS").Perm ["TCS", "INFY"] ∧
    ((["TCS", "INFY", "TCS"] : List String).foldl toggleStock []).Nodup :=
  ⟨by decide,
    (toggle_involution_as_set_and_nodup ["TCS", "INFY"] "TCS" [] (by decide)).1,
    (toggle_involution_as_set_and_nodup [] "TCS" ["TCS", "INFY", "TCS"]
      List.nodup_nil).2⟩

/-- The request of a run that will fail. -/
def failedRunRequest : BacktestRequest :=
  { stocks := ["TCS", "INFY"]
    strategy := "hammer"
    target_percent := some 3
    stop_loss_percent := some 2
    start_date := some ⟨2024, 5, 16⟩
    end_date := some ⟨2024, 6, 15⟩
    timeframe := "15min" }

/-- Claim C10: the Excel-report guard checks only the stored request
params, which `startBacktest()` writes before the network call — so after
a session whose every run failed, `downloadExcel()` proceeds and forwards
the failed run's request, while the JSON export is still rejected because
`lastBacktestResults` is written only on success. -/
theorem excel_guard_passes_after_failed_run :
    ∀ (c : ControllerExportState) (req : BacktestRequest) (msg : String),
      c.lastBacktestResults = none →
      downloadExcelAction (startBacktestRun c req (.failure msg)) = some req ∧
      downloadJSONAllowed (startBacktestRun c req (.failure msg)) = false := by
  intro c req msg h
  refine ⟨rfl, ?_⟩
  simp [downloadJSONAllowed, startBacktestRun, h]

/-- Witness for C10 at a concrete failed session: the report export
forwards the failed request; the JSON export is rejected. -/
theorem excel_guard_passes_after_failed_run_witness :
    (ControllerExportState.mk none none).lastBacktestResults = none ∧
    downloadExcelAction
        (startBacktestRun ⟨none, none⟩ failedRunRequest (.failure "HTTP 500")) =
      some failedRunRequest ∧
    downloadJSONAllowed
        (startBacktestRun ⟨none, none⟩ failedRunRequest (.failure "HTTP 500")) = false :=
  ⟨rfl, excel_guard_passes_after_failed_run ⟨none, none⟩ failedRunRequest "HTTP 500" rfl⟩

end Backtest
